import Mathlib

/-!
Shallow embedding of the per-channel MIDI encoder (src/src/OutputChannel.js).

JS numbers are modelled as rationals, JS exceptions as an explicit error in the
operation outcome, and the list of messages handed to the Output collaborator is
recorded so that partial sends before an exception are observable.  External
collaborators that live outside the embedded file (the WebMidi lookup tables,
the time resolver and the note resolver) are modelled from the spec and from
the lists reproduced in the source documentation.
-/

namespace WebMidiModel

/-- JS Math.floor on a rational. -/
def jsFloor (q : ℚ) : Int := Int.floor q

/-- JS Math.round on a rational: floor of x + 1/2. -/
def jsRound (q : ℚ) : Int := Int.floor (q + 1/2)

/-- JS parseInt applied to a number: truncation toward zero. -/
def jsTrunc (q : ℚ) : Int := if 0 ≤ q then Int.floor q else -Int.floor (-q)

/-- JS truthiness of an optional numeric value (undefined and 0 are falsy). -/
def jsTruthy : Option ℚ → Bool
  | Option.none => false
  | Option.some q => q != 0

/-- A time descriptor: absent, an absolute timestamp, or a relative "+ms" string. -/
inductive TimeSpec where
  | asap : TimeSpec
  | abs (t : ℚ) : TimeSpec
  | rel (ms : ℚ) : TimeSpec
deriving DecidableEq

/-- Modelled from the spec: the external Time Resolver (WebMidi.convertToTimestamp,
not under src/).  Per the spec, an absent descriptor or a past time resolves to
"as soon as possible" (the current time), a "+ms" string resolves to now + ms and
a numeric descriptor is an absolute device-clock timestamp. -/
def convertToTimestamp (now : ℚ) : TimeSpec → ℚ
  | TimeSpec.asap => now
  | TimeSpec.abs t => if t < now then now else t
  | TimeSpec.rel ms => now + ms

/-- A wire message as handed to the Output collaborator. -/
structure Msg where
  status : Nat
  data : List ℚ
  timestamp : ℚ
deriving DecidableEq

/-- The kind of JS error an operation can throw. -/
inductive Err where
  | rangeError (message : String)
  | typeError (message : String)
  | genericError (message : String)
deriving DecidableEq

/-- The observable outcome of one operation: the messages handed to the Output
collaborator, in order, and the error that aborted the operation, if any. -/
structure Outcome where
  sent : List Msg
  err : Option Err
deriving DecidableEq

def ok (ms : List Msg) : Outcome := ⟨ms, Option.none⟩

def fail (e : Err) : Outcome := ⟨[], Option.some e⟩

/-- Sequencing two statements: a JS exception aborts the later statement but the
messages already sent by the earlier one remain sent. -/
def Outcome.andThen (o : Outcome) (f : Unit → Outcome) : Outcome :=
  match o.err with
  | Option.some _ => o
  | Option.none =>
    let o2 := f ()
    ⟨o.sent ++ o2.sent, o2.err⟩

/-- Modelled from the spec: the command nibbles of WebMidi.MIDI_CHANNEL_VOICE_MESSAGES
(not under src/); the status high nibble identifies the command family and channel
mode is the reserved control-change range. -/
def MIDI_CHANNEL_VOICE_MESSAGES_noteoff : Nat := 0x8

/-- Modelled from the spec: command nibble for note on. -/
def MIDI_CHANNEL_VOICE_MESSAGES_noteon : Nat := 0x9

/-- Modelled from the spec: command nibble for key aftertouch. -/
def MIDI_CHANNEL_VOICE_MESSAGES_keyaftertouch : Nat := 0xA

/-- Modelled from the spec: command nibble for control change. -/
def MIDI_CHANNEL_VOICE_MESSAGES_controlchange : Nat := 0xB

/-- Modelled from the spec: command nibble for channel mode (a reserved
control-change range per the spec glossary). -/
def MIDI_CHANNEL_VOICE_MESSAGES_channelmode : Nat := 0xB

/-- Modelled from the spec: command nibble for program change. -/
def MIDI_CHANNEL_VOICE_MESSAGES_programchange : Nat := 0xC

/-- Modelled from the spec: command nibble for channel aftertouch. -/
def MIDI_CHANNEL_VOICE_MESSAGES_channelaftertouch : Nat := 0xD

/-- Modelled from the spec: command nibble for pitch bend. -/
def MIDI_CHANNEL_VOICE_MESSAGES_pitchbend : Nat := 0xE

/-- Modelled from the spec: the external controller name lookup table
(WebMidi.MIDI_CONTROL_CHANGE_MESSAGES, not under src/), as listed in the
source documentation of sendControlChange. -/
def MIDI_CONTROL_CHANGE_MESSAGES : String → Option Nat
  | "bankselectcoarse" => Option.some 0
  | "modulationwheelcoarse" => Option.some 1
  | "breathcontrollercoarse" => Option.some 2
  | "footcontrollercoarse" => Option.some 4
  | "portamentotimecoarse" => Option.some 5
  | "dataentrycoarse" => Option.some 6
  | "volumecoarse" => Option.some 7
  | "balancecoarse" => Option.some 8
  | "pancoarse" => Option.some 10
  | "expressioncoarse" => Option.some 11
  | "effectcontrol1coarse" => Option.some 12
  | "effectcontrol2coarse" => Option.some 13
  | "generalpurposeslider1" => Option.some 16
  | "generalpurposeslider2" => Option.some 17
  | "generalpurposeslider3" => Option.some 18
  | "generalpurposeslider4" => Option.some 19
  | "bankselectfine" => Option.some 32
  | "modulationwheelfine" => Option.some 33
  | "breathcontrollerfine" => Option.some 34
  | "footcontrollerfine" => Option.some 36
  | "portamentotimefine" => Option.some 37
  | "dataentryfine" => Option.some 38
  | "volumefine" => Option.some 39
  | "balancefine" => Option.some 40
  | "panfine" => Option.some 42
  | "expressionfine" => Option.some 43
  | "effectcontrol1fine" => Option.some 44
  | "effectcontrol2fine" => Option.some 45
  | "holdpedal" => Option.some 64
  | "portamento" => Option.some 65
  | "sustenutopedal" => Option.some 66
  | "softpedal" => Option.some 67
  | "legatopedal" => Option.some 68
  | "hold2pedal" => Option.some 69
  | "soundvariation" => Option.some 70
  | "resonance" => Option.some 71
  | "soundreleasetime" => Option.some 72
  | "soundattacktime" => Option.some 73
  | "brightness" => Option.some 74
  | "soundcontrol6" => Option.some 75
  | "soundcontrol7" => Option.some 76
  | "soundcontrol8" => Option.some 77
  | "soundcontrol9" => Option.some 78
  | "soundcontrol10" => Option.some 79
  | "generalpurposebutton1" => Option.some 80
  | "generalpurposebutton2" => Option.some 81
  | "generalpurposebutton3" => Option.some 82
  | "generalpurposebutton4" => Option.some 83
  | "reverblevel" => Option.some 91
  | "tremololevel" => Option.some 92
  | "choruslevel" => Option.some 93
  | "celestelevel" => Option.some 94
  | "phaserlevel" => Option.some 95
  | "databuttonincrement" => Option.some 96
  | "databuttondecrement" => Option.some 97
  | "nonregisteredparametercoarse" => Option.some 98
  | "nonregisteredparameterfine" => Option.some 99
  | "registeredparametercoarse" => Option.some 100
  | "registeredparameterfine" => Option.some 101
  | _ => Option.none

/-- Modelled from the spec: the external registered-parameter lookup table
(WebMidi.MIDI_REGISTERED_PARAMETER, not under src/), name to two control bytes,
as listed in the source documentation of setRegisteredParameter. -/
def MIDI_REGISTERED_PARAMETER : String → Option (ℚ × ℚ)
  | "pitchbendrange" => Option.some (0x00, 0x00)
  | "channelfinetuning" => Option.some (0x00, 0x01)
  | "channelcoarsetuning" => Option.some (0x00, 0x02)
  | "tuningprogram" => Option.some (0x00, 0x03)
  | "tuningbank" => Option.some (0x00, 0x04)
  | "modulationrange" => Option.some (0x00, 0x05)
  | "azimuthangle" => Option.some (0x3D, 0x00)
  | "elevationangle" => Option.some (0x3D, 0x01)
  | "gain" => Option.some (0x3D, 0x02)
  | "distanceratio" => Option.some (0x3D, 0x03)
  | "maximumdistance" => Option.some (0x3D, 0x04)
  | "maximumdistancegain" => Option.some (0x3D, 0x05)
  | "referencedistanceratio" => Option.some (0x3D, 0x06)
  | "panspreadangle" => Option.some (0x3D, 0x07)
  | "rollangle" => Option.some (0x3D, 0x08)
  | _ => Option.none

/-- Modelled from the spec: the external channel-mode name lookup table
(WebMidi.MIDI_CHANNEL_MODE_MESSAGES, not under src/), as listed in the source
documentation of sendChannelMode. -/
def MIDI_CHANNEL_MODE_MESSAGES : String → Option Nat
  | "allsoundoff" => Option.some 120
  | "resetallcontrollers" => Option.some 121
  | "localcontrol" => Option.some 122
  | "allnotesoff" => Option.some 123
  | "omnimodeoff" => Option.some 124
  | "omnimodeon" => Option.some 125
  | "monomodeon" => Option.some 126
  | "polymodeon" => Option.some 127
  | _ => Option.none

/-- A controller argument: a number or a common name. -/
inductive CtrlArg where
  | num (c : ℚ)
  | name (s : String)

/-- sendControlChange (source lines 230-254): resolve a name via the lookup table
(TypeError when unknown) or floor a number and require 0-119 (RangeError), then
send one control-change message; the value is passed through unvalidated. -/
def sendControlChange (controller : CtrlArg) (value : ℚ) (time : TimeSpec)
    (ch : Nat) (now : ℚ) : Outcome :=
  match controller with
  | CtrlArg.name s =>
    match MIDI_CONTROL_CHANGE_MESSAGES s with
    | Option.none => fail (Err.typeError "Invalid controller name.")
    | Option.some c =>
      ok [⟨MIDI_CHANNEL_VOICE_MESSAGES_controlchange * 16 + (ch - 1),
           [(c : ℚ), value], convertToTimestamp now time⟩]
  | CtrlArg.num q =>
    let c := jsFloor q
    if 0 ≤ c ∧ c ≤ 119 then
      ok [⟨MIDI_CHANNEL_VOICE_MESSAGES_controlchange * 16 + (ch - 1),
           [(c : ℚ), value], convertToTimestamp now time⟩]
    else
      fail (Err.rangeError "Controller numbers must be between 0 and 119.")

/-- The private select helper for registered parameters (source lines 320-335):
both select bytes are floored and validated to 0-127 before either message is
sent; then controller 0x65 carries the MSB byte and 0x64 the LSB byte. -/
def selectRegisteredParameter (parameter : ℚ × ℚ) (time : TimeSpec)
    (ch : Nat) (now : ℚ) : Outcome :=
  let p0 := jsFloor parameter.1
  if ¬ (0 ≤ p0 ∧ p0 ≤ 127) then
    fail (Err.rangeError "The control65 value must be between 0 and 127")
  else
    let p1 := jsFloor parameter.2
    if ¬ (0 ≤ p1 ∧ p1 ≤ 127) then
      fail (Err.rangeError "The control64 value must be between 0 and 127")
    else
      (sendControlChange (CtrlArg.num 0x65) (p0 : ℚ) time ch now).andThen (fun _ =>
        sendControlChange (CtrlArg.num 0x64) (p1 : ℚ) time ch now)

/-- The private select helper for non-registered parameters (source lines
270-285), identical to the registered one but on controllers 0x63 and 0x62. -/
def selectNonRegisteredParameter (parameter : ℚ × ℚ) (time : TimeSpec)
    (ch : Nat) (now : ℚ) : Outcome :=
  let p0 := jsFloor parameter.1
  if ¬ (0 ≤ p0 ∧ p0 ≤ 127) then
    fail (Err.rangeError "The control63 value must be between 0 and 127.")
  else
    let p1 := jsFloor parameter.2
    if ¬ (0 ≤ p1 ∧ p1 ≤ 127) then
      fail (Err.rangeError "The control62 value must be between 0 and 127.")
    else
      (sendControlChange (CtrlArg.num 0x63) (p0 : ℚ) time ch now).andThen (fun _ =>
        sendControlChange (CtrlArg.num 0x62) (p1 : ℚ) time ch now)

/-- The private deselect helper (source lines 301-304): controllers 0x65 then
0x64 with value 0x7F each. -/
def deselectRegisteredParameter (time : TimeSpec) (ch : Nat) (now : ℚ) : Outcome :=
  (sendControlChange (CtrlArg.num 0x65) 0x7F time ch now).andThen (fun _ =>
    sendControlChange (CtrlArg.num 0x64) 0x7F time ch now)

/-- The private data-entry helper (source lines 349-372): the MSB data byte is
parsed and validated, and its 0x06 message is sent immediately; only afterwards,
and only when a second data byte is present, is the LSB parsed and validated and
its 0x26 message sent.  An invalid LSB therefore aborts after the 0x06 message
has already been handed over. -/
def setCurrentRegisteredParameter (data : List ℚ) (time : TimeSpec)
    (ch : Nat) (now : ℚ) : Outcome :=
  match data with
  | [] => fail (Err.rangeError "The msb value must be between 0 and 127.")
  | d0 :: rest =>
    let m := jsTrunc d0
    if 0 ≤ m ∧ m ≤ 127 then
      (sendControlChange (CtrlArg.num 0x06) (m : ℚ) time ch now).andThen (fun _ =>
        match rest with
        | [] => ok []
        | d1 :: _ =>
          let l := jsTrunc d1
          if 0 ≤ l ∧ l ≤ 127 then
            sendControlChange (CtrlArg.num 0x26) (l : ℚ) time ch now
          else
            fail (Err.rangeError "The lsb value must be between 0 and 127."))
    else
      fail (Err.rangeError "The msb value must be between 0 and 127.")

/-- A registered-parameter argument: the two control bytes or a name. -/
inductive ParamArg where
  | arr (p : ℚ × ℚ)
  | name (s : String)

/-- setRegisteredParameter (source lines 1183-1198): a name is resolved through
the lookup table (a plain Error when unknown), then select, data entry and
deselect run in order.  The source passes the channel number where the select
and data-entry helpers expect their time argument, so those helpers resolve the
channel number as an absolute timestamp while only the deselect step receives
the caller's time descriptor. -/
def setRegisteredParameter (parameter : ParamArg) (data : List ℚ) (time : TimeSpec)
    (ch : Nat) (now : ℚ) : Outcome :=
  match (match parameter with
         | ParamArg.arr p => Except.ok p
         | ParamArg.name s =>
           match MIDI_REGISTERED_PARAMETER s with
           | Option.none =>
             Except.error (Err.genericError "The specified parameter is not available.")
           | Option.some p => Except.ok p) with
  | Except.error e => fail e
  | Except.ok p =>
    ((selectRegisteredParameter p (TimeSpec.abs (ch : ℚ)) ch now).andThen (fun _ =>
      setCurrentRegisteredParameter data (TimeSpec.abs (ch : ℚ)) ch now)).andThen (fun _ =>
      deselectRegisteredParameter time ch now)

/-- setNonRegisteredParameter (source lines 1008-1018): like the registered
variant but with the 0x63/0x62 select pair, and with the same channel-as-time
argument slip in the select and data-entry calls. -/
def setNonRegisteredParameter (parameter : ℚ × ℚ) (data : List ℚ) (time : TimeSpec)
    (ch : Nat) (now : ℚ) : Outcome :=
  ((selectNonRegisteredParameter parameter (TimeSpec.abs (ch : ℚ)) ch now).andThen (fun _ =>
    setCurrentRegisteredParameter data (TimeSpec.abs (ch : ℚ)) ch now)).andThen (fun _ =>
    deselectRegisteredParameter time ch now)

/-- incrementRegisteredParameter (source lines 461-476): unknown names throw a
plain Error; the select, data-increment (controller 0x60, value 0) and deselect
steps all receive the caller's time descriptor. -/
def incrementRegisteredParameter (parameter : ParamArg) (time : TimeSpec)
    (ch : Nat) (now : ℚ) : Outcome :=
  match (match parameter with
         | ParamArg.arr p => Except.ok p
         | ParamArg.name s =>
           match MIDI_REGISTERED_PARAMETER s with
           | Option.none =>
             Except.error (Err.genericError "The specified parameter is not available.")
           | Option.some p => Except.ok p) with
  | Except.error e => fail e
  | Except.ok p =>
    ((selectRegisteredParameter p time ch now).andThen (fun _ =>
      sendControlChange (CtrlArg.num 0x60) 0 time ch now)).andThen (fun _ =>
      deselectRegisteredParameter time ch now)

/-- decrementRegisteredParameter (source lines 409-424): unknown names throw a
TypeError; the source passes the channel number where the select helper expects
its time argument, and passes the channel number as the options object of the
data-decrement control change, whose time property is therefore undefined. -/
def decrementRegisteredParameter (parameter : ParamArg) (time : TimeSpec)
    (ch : Nat) (now : ℚ) : Outcome :=
  match (match parameter with
         | ParamArg.arr p => Except.ok p
         | ParamArg.name s =>
           match MIDI_REGISTERED_PARAMETER s with
           | Option.none =>
             Except.error (Err.typeError "The specified parameter is not available.")
           | Option.some p => Except.ok p) with
  | Except.error e => fail e
  | Except.ok p =>
    ((selectRegisteredParameter p (TimeSpec.abs (ch : ℚ)) ch now).andThen (fun _ =>
      sendControlChange (CtrlArg.num 0x61) 0 TimeSpec.asap ch now)).andThen (fun _ =>
      deselectRegisteredParameter time ch now)

/-- A channel-mode command argument: a number or a name. -/
inductive CmdArg where
  | num (c : ℚ)
  | name (s : String)

/-- sendChannelMode (source lines 784-810): names go through the lookup table,
numbers through parseInt; an unknown name or a number outside 120-127 both throw
the same TypeError.  The optional value defaults to 0 and is range-checked to
0-127 with a RangeError. -/
def sendChannelMode (command : CmdArg) (value : Option ℚ) (time : TimeSpec)
    (ch : Nat) (now : ℚ) : Outcome :=
  let cmd : Option Int :=
    match command with
    | CmdArg.name s => (MIDI_CHANNEL_MODE_MESSAGES s).map (fun n => (n : Int))
    | CmdArg.num q => Option.some (jsTrunc q)
  match cmd with
  | Option.none => fail (Err.typeError "Invalid channel mode message name or number.")
  | Option.some c =>
    if ¬ (120 ≤ c ∧ c ≤ 127) then
      fail (Err.typeError "Invalid channel mode message name or number.")
    else
      let v : Int :=
        match value with
        | Option.none => 0
        | Option.some q => jsTrunc q
      if v < 0 ∨ 127 < v then
        fail (Err.rangeError "Value must be an integer between 0 and 127.")
      else
        ok [⟨MIDI_CHANNEL_VOICE_MESSAGES_channelmode * 16 + (ch - 1),
             [(c : ℚ), (v : ℚ)], convertToTimestamp now time⟩]

/-- setPitchBend (source lines 1041-1063): out-of-range values throw a
RangeError; otherwise the value is mapped onto 0-16383, split into MSB and LSB
7-bit halves and sent with the LSB first.  In every reachable use the level is
nonnegative, so the shift and mask of the source act on a natural number. -/
def setPitchBend (value : ℚ) (rawValue : Bool) (time : TimeSpec)
    (ch : Nat) (now : ℚ) : Outcome :=
  let v := if rawValue then value / 127 * 2 - 1 else value
  if v < -1 ∨ 1 < v then
    fail (Err.rangeError "Pitch bend value must be between -1.0 and 1.0.")
  else
    let nLevel := (jsRound ((v + 1) / 2 * 16383)).toNat
    let msb := (nLevel >>> 7) &&& 0x7F
    let lsb := nLevel &&& 0x7F
    ok [⟨MIDI_CHANNEL_VOICE_MESSAGES_pitchbend * 16 + (ch - 1),
         [(lsb : ℚ), (msb : ℚ)], convertToTimestamp now time⟩]

/-- setProgram (source lines 1120-1132): no validation at all; the input is
parsed, decremented by 1 and sent as the single data byte. -/
def setProgram (program : ℚ) (time : TimeSpec) (ch : Nat) (now : ℚ) : Outcome :=
  ok [⟨MIDI_CHANNEL_VOICE_MESSAGES_programchange * 16 + (ch - 1),
       [program - 1], convertToTimestamp now time⟩]

/-- A note as returned by the external Note Resolver. -/
structure ResolvedNote where
  number : ℚ
  rawAttack : ℚ
  rawRelease : ℚ
deriving DecidableEq

/-- Modelled from the spec: the external Note Resolver (WebMidi.getValidNoteArray,
not under src/).  A numeric note spec resolves to a single note carrying that
number; the rawAttack and rawRelease fields come from the options the caller
supplies, with a default of 64. -/
def getValidNoteArray (note : ℚ) (rawAttack rawRelease : Option ℚ) :
    List ResolvedNote :=
  [⟨note, rawAttack.getD 64, rawRelease.getD 64⟩]

/-- setKeyAftertouch (source lines 116-138): a non-numeric pressure silently
becomes 0.5, a raw-flag value is scaled down by 127, and then any value outside
0-1 throws a RangeError; otherwise one key-aftertouch message is sent per
resolved note. -/
def setKeyAftertouch (note : ℚ) (pressure : Option ℚ) (useRawValue : Bool)
    (time : TimeSpec) (ch : Nat) (now : ℚ) : Outcome :=
  let p0 : ℚ :=
    match pressure with
    | Option.none => 1/2
    | Option.some q => q
  let p := if useRawValue then p0 / 127 else p0
  if p < 0 ∨ 1 < p then
    fail (Err.rangeError "Pressure value must be between 0 and 1.")
  else
    ok ((getValidNoteArray note Option.none Option.none).map (fun n =>
      ⟨MIDI_CHANNEL_VOICE_MESSAGES_keyaftertouch * 16 + (ch - 1),
       [n.number, (jsRound (p * 127) : ℚ)], convertToTimestamp now time⟩))

/-- setChannelAftertouch (source lines 865-883): the same pressure handling as
the key variant, then a single channel-aftertouch message with one data byte. -/
def setChannelAftertouch (pressure : Option ℚ) (rawValue : Bool)
    (time : TimeSpec) (ch : Nat) (now : ℚ) : Outcome :=
  let p0 : ℚ :=
    match pressure with
    | Option.none => 1/2
    | Option.some q => q
  let p := if rawValue then p0 / 127 else p0
  if p < 0 ∨ 1 < p then
    fail (Err.rangeError "Pitch bend value must be between 0 and 1.")
  else
    ok [⟨MIDI_CHANNEL_VOICE_MESSAGES_channelaftertouch * 16 + (ch - 1),
         [(jsRound (p * 127) : ℚ)], convertToTimestamp now time⟩]

/-- The options object of the note operations. -/
structure NoteOptions where
  duration : Option ℚ
  attack : Option ℚ
  rawAttack : Option ℚ
  release : Option ℚ
  rawRelease : Option ℚ
  velocity : Option ℚ
  rawVelocity : Option ℚ
  time : TimeSpec

/-- sendNoteOn (source lines 691-738): the deprecated velocity options are
aliased onto the canonical fields first; the velocity defaults to 64 and, as in
the source, both branches of the raw flag read the attack field; then one
note-on message is sent per resolved note at the resolved time. -/
def sendNoteOn (note : ℚ) (options : NoteOptions) (ch : Nat) (now : ℚ) : Outcome :=
  let rawAttack := if jsTruthy options.rawVelocity then options.velocity else options.rawAttack
  let attack := if jsTruthy options.velocity then options.velocity else options.attack
  let nVelocity : ℚ :=
    if jsTruthy rawAttack then
      match attack with
      | Option.none => 64
      | Option.some a => if 0 ≤ a ∧ a ≤ 127 then a else 64
    else
      match attack with
      | Option.none => 64
      | Option.some a => if 0 ≤ a ∧ a ≤ 1 then a * 127 else 64
  ok ((getValidNoteArray note (Option.some nVelocity) Option.none).map (fun n =>
    ⟨MIDI_CHANNEL_VOICE_MESSAGES_noteon * 16 + (ch - 1),
     [n.number, n.rawAttack], convertToTimestamp now options.time⟩))

/-- sendNoteOff (source lines 585-634): the deprecated-option fields are read
from the options object before the line that defaults a missing object, so a
call without an options argument throws a TypeError with nothing sent.  With an
options object present, the release velocity defaults to 64, the raw field wins
when truthy, and one note-off message is sent per resolved note. -/
def sendNoteOff (note : ℚ) (options : Option NoteOptions) (ch : Nat) (now : ℚ) :
    Outcome :=
  match options with
  | Option.none =>
    fail (Err.typeError "Cannot read properties of undefined")
  | Option.some o =>
    let rawRelease := if jsTruthy o.rawVelocity then o.velocity else o.rawRelease
    let release := if jsTruthy o.velocity then o.velocity else o.release
    let nVelocity : ℚ :=
      if jsTruthy rawRelease then
        match rawRelease with
        | Option.none => 64
        | Option.some r => if 0 ≤ r ∧ r ≤ 127 then r else 64
      else
        match release with
        | Option.none => 64
        | Option.some r => if 0 ≤ r ∧ r ≤ 1 then r * 127 else 64
    ok ((getValidNoteArray note Option.none (Option.some nVelocity)).map (fun n =>
      ⟨MIDI_CHANNEL_VOICE_MESSAGES_noteoff * 16 + (ch - 1),
       [n.number, n.rawRelease], convertToTimestamp now o.time⟩))

/-- stopNote (source lines 645-647): an alias of sendNoteOff. -/
def stopNote (note : ℚ) (options : Option NoteOptions) (ch : Nat) (now : ℚ) :
    Outcome :=
  sendNoteOff note options ch now

/-- playNote (source lines 538-546): a note-on, then, when a numeric duration is
present, a note-off with the same options object. -/
def playNote (note : ℚ) (options : NoteOptions) (ch : Nat) (now : ℚ) : Outcome :=
  (sendNoteOn note options ch now).andThen (fun _ =>
    match options.duration with
    | Option.none => ok []
    | Option.some _ => sendNoteOff note (Option.some options) ch now)

end WebMidiModel

open WebMidiModel

/-! Evaluation lemmas for the outcome sequencing and the parameter-protocol
helpers, shared by the claim theorems below. -/

theorem andThen_of_err (o : Outcome) (f : Unit → Outcome) (e : Err)
    (h : o.err = Option.some e) : o.andThen f = o := by
  simp [Outcome.andThen, h]

theorem andThen_of_ok (o : Outcome) (f : Unit → Outcome)
    (h : o.err = Option.none) :
    o.andThen f = ⟨o.sent ++ (f ()).sent, (f ()).err⟩ := by
  simp [Outcome.andThen, h]

theorem andThen_andThen_fail (e : Err) (f g : Unit → Outcome) :
    ((fail e).andThen f).andThen g = fail e := by
  simp [Outcome.andThen, fail]

theorem andThen_andThen_ok_err (ms1 ms2 : List Msg) (f g : Unit → Outcome) (e : Err)
    (hf : f () = ⟨ms2, Option.some e⟩) :
    ((ok ms1).andThen f).andThen g = ⟨ms1 ++ ms2, Option.some e⟩ := by
  simp [Outcome.andThen, ok, hf]

theorem sendControlChange_num_ok (c value : ℚ) (time : TimeSpec) (ch : Nat) (now : ℚ)
    (h : 0 ≤ jsFloor c ∧ jsFloor c ≤ 119) :
    sendControlChange (CtrlArg.num c) value time ch now =
      ok [⟨0xB * 16 + (ch - 1), [(jsFloor c : ℚ), value], convertToTimestamp now time⟩] := by
  simp only [sendControlChange]
  rw [if_pos h]
  rfl

theorem selectRegisteredParameter_ok (p0 p1 : ℚ) (time : TimeSpec) (ch : Nat) (now : ℚ)
    (h0 : 0 ≤ jsFloor p0 ∧ jsFloor p0 ≤ 127) (h1 : 0 ≤ jsFloor p1 ∧ jsFloor p1 ≤ 127) :
    selectRegisteredParameter (p0, p1) time ch now =
      ok [⟨0xB * 16 + (ch - 1), [0x65, (jsFloor p0 : ℚ)], convertToTimestamp now time⟩,
          ⟨0xB * 16 + (ch - 1), [0x64, (jsFloor p1 : ℚ)], convertToTimestamp now time⟩] := by
  simp only [selectRegisteredParameter]
  rw [if_neg (not_not_intro h0), if_neg (not_not_intro h1),
    sendControlChange_num_ok _ _ _ _ _ (by norm_num [jsFloor]),
    sendControlChange_num_ok _ _ _ _ _ (by norm_num [jsFloor]),
    andThen_of_ok _ _ rfl]
  norm_num [jsFloor, ok]

theorem selectRegisteredParameter_err0 (p0 p1 : ℚ) (time : TimeSpec) (ch : Nat) (now : ℚ)
    (h : ¬ (0 ≤ jsFloor p0 ∧ jsFloor p0 ≤ 127)) :
    selectRegisteredParameter (p0, p1) time ch now =
      fail (Err.rangeError "The control65 value must be between 0 and 127") := by
  simp only [selectRegisteredParameter]
  rw [if_pos h]

theorem selectRegisteredParameter_err1 (p0 p1 : ℚ) (time : TimeSpec) (ch : Nat) (now : ℚ)
    (h0 : 0 ≤ jsFloor p0 ∧ jsFloor p0 ≤ 127) (h : ¬ (0 ≤ jsFloor p1 ∧ jsFloor p1 ≤ 127)) :
    selectRegisteredParameter (p0, p1) time ch now =
      fail (Err.rangeError "The control64 value must be between 0 and 127") := by
  simp only [selectRegisteredParameter]
  rw [if_neg (not_not_intro h0), if_pos h]

theorem setCurrentRegisteredParameter_msb_bad (d0 : ℚ) (rest : List ℚ) (time : TimeSpec)
    (ch : Nat) (now : ℚ) (h : ¬ (0 ≤ jsTrunc d0 ∧ jsTrunc d0 ≤ 127)) :
    setCurrentRegisteredParameter (d0 :: rest) time ch now =
      fail (Err.rangeError "The msb value must be between 0 and 127.") := by
  simp only [setCurrentRegisteredParameter]
  rw [if_neg h]

theorem setCurrentRegisteredParameter_lsb_bad (d0 d1 : ℚ) (rest : List ℚ) (time : TimeSpec)
    (ch : Nat) (now : ℚ) (hm : 0 ≤ jsTrunc d0 ∧ jsTrunc d0 ≤ 127)
    (hl : ¬ (0 ≤ jsTrunc d1 ∧ jsTrunc d1 ≤ 127)) :
    setCurrentRegisteredParameter (d0 :: d1 :: rest) time ch now =
      ⟨[⟨0xB * 16 + (ch - 1), [0x06, (jsTrunc d0 : ℚ)], convertToTimestamp now time⟩],
       Option.some (Err.rangeError "The lsb value must be between 0 and 127.")⟩ := by
  simp only [setCurrentRegisteredParameter]
  rw [if_pos hm, sendControlChange_num_ok _ _ _ _ _ (by norm_num [jsFloor]),
    andThen_of_ok _ _ rfl]
  norm_num [jsFloor, ok, fail]
  rw [if_neg hl]
  norm_num [fail]

theorem selectNonRegisteredParameter_ok (p0 p1 : ℚ) (time : TimeSpec) (ch : Nat) (now : ℚ)
    (h0 : 0 ≤ jsFloor p0 ∧ jsFloor p0 ≤ 127) (h1 : 0 ≤ jsFloor p1 ∧ jsFloor p1 ≤ 127) :
    selectNonRegisteredParameter (p0, p1) time ch now =
      ok [⟨0xB * 16 + (ch - 1), [0x63, (jsFloor p0 : ℚ)], convertToTimestamp now time⟩,
          ⟨0xB * 16 + (ch - 1), [0x62, (jsFloor p1 : ℚ)], convertToTimestamp now time⟩] := by
  simp only [selectNonRegisteredParameter]
  rw [if_neg (not_not_intro h0), if_neg (not_not_intro h1),
    sendControlChange_num_ok _ _ _ _ _ (by norm_num [jsFloor]),
    sendControlChange_num_ok _ _ _ _ _ (by norm_num [jsFloor]),
    andThen_of_ok _ _ rfl]
  norm_num [jsFloor, ok]

theorem selectNonRegisteredParameter_err0 (p0 p1 : ℚ) (time : TimeSpec) (ch : Nat) (now : ℚ)
    (h : ¬ (0 ≤ jsFloor p0 ∧ jsFloor p0 ≤ 127)) :
    selectNonRegisteredParameter (p0, p1) time ch now =
      fail (Err.rangeError "The control63 value must be between 0 and 127.") := by
  simp only [selectNonRegisteredParameter]
  rw [if_pos h]

theorem selectNonRegisteredParameter_err1 (p0 p1 : ℚ) (time : TimeSpec) (ch : Nat) (now : ℚ)
    (h0 : 0 ≤ jsFloor p0 ∧ jsFloor p0 ≤ 127) (h : ¬ (0 ≤ jsFloor p1 ∧ jsFloor p1 ≤ 127)) :
    selectNonRegisteredParameter (p0, p1) time ch now =
      fail (Err.rangeError "The control62 value must be between 0 and 127.") := by
  simp only [selectNonRegisteredParameter]
  rw [if_neg (not_not_intro h0), if_pos h]

/-! The claims. -/

/-- C1, counterexample: setRegisteredParameter("pitchbendrange", [12,0]) supplies
two data bytes, so the data-entry step also emits controller 0x26 with value 0
and the operation hands over 6 messages, not the 5 the claim states. -/
theorem C1_counterexample :
    (setRegisteredParameter (ParamArg.name "pitchbendrange") [12, 0]
      TimeSpec.asap 1 0).sent.length ≠ 5 ∧
    (setRegisteredParameter (ParamArg.name "pitchbendrange") [12, 0]
      TimeSpec.asap 1 0).sent.length = 6 := by
  norm_num [setRegisteredParameter, MIDI_REGISTERED_PARAMETER, selectRegisteredParameter,
    setCurrentRegisteredParameter, deselectRegisteredParameter, sendControlChange,
    MIDI_CHANNEL_VOICE_MESSAGES_controlchange, Outcome.andThen, ok, fail, jsFloor, jsTrunc]

/-- C1, amended: for every channel, setRegisteredParameter("pitchbendrange", [12,0])
emits exactly 6 control-change messages in order 0x65=0, 0x64=0, 0x06=12, 0x26=0,
0x65=127, 0x64=127, while with the single data byte [12] it emits exactly the 5
claimed messages with no controller 0x26. -/
theorem C1_amended_rpn_message_sequence (ch : Nat) (now : ℚ) (t : TimeSpec) :
    (setRegisteredParameter (ParamArg.name "pitchbendrange") [12, 0] t ch now).sent.map
        (fun m => (m.status, m.data)) =
      [(0xB * 16 + (ch - 1), [0x65, 0]), (0xB * 16 + (ch - 1), [0x64, 0]),
       (0xB * 16 + (ch - 1), [0x06, 12]), (0xB * 16 + (ch - 1), [0x26, 0]),
       (0xB * 16 + (ch - 1), [0x65, 127]), (0xB * 16 + (ch - 1), [0x64, 127])] ∧
    (setRegisteredParameter (ParamArg.name "pitchbendrange") [12, 0] t ch now).err =
      Option.none ∧
    (setRegisteredParameter (ParamArg.name "pitchbendrange") [12] t ch now).sent.map
        (fun m => (m.status, m.data)) =
      [(0xB * 16 + (ch - 1), [0x65, 0]), (0xB * 16 + (ch - 1), [0x64, 0]),
       (0xB * 16 + (ch - 1), [0x06, 12]),
       (0xB * 16 + (ch - 1), [0x65, 127]), (0xB * 16 + (ch - 1), [0x64, 127])] ∧
    (setRegisteredParameter (ParamArg.name "pitchbendrange") [12] t ch now).err =
      Option.none := by
  norm_num [setRegisteredParameter, MIDI_REGISTERED_PARAMETER, selectRegisteredParameter,
    setCurrentRegisteredParameter, deselectRegisteredParameter, sendControlChange,
    MIDI_CHANNEL_VOICE_MESSAGES_controlchange, Outcome.andThen, ok, fail, jsFloor, jsTrunc]

/-- C2, code behavior at the failing input: playNote(60, duration 100, time "+50")
on channel 1 with now = 1000 emits the note-on and the note-off both at 1050;
the claim and the source documentation require the note-off at the resolved
time plus the duration, 1150, but sendNoteOff never adds the duration. -/
theorem C2_playNote_duration_code_behavior :
    (playNote 60 ⟨Option.some 100, Option.none, Option.none, Option.none, Option.none,
        Option.none, Option.none, TimeSpec.rel 50⟩ 1 1000).sent.map
        (fun m => (m.status, m.timestamp)) = [(0x90, 1050), (0x80, 1050)] ∧
    (1050 : ℚ) ≠ convertToTimestamp 1000 (TimeSpec.rel 50) + 100 := by
  constructor
  · norm_num [playNote, sendNoteOn, sendNoteOff, getValidNoteArray, jsTruthy,
      Outcome.andThen, ok, convertToTimestamp, MIDI_CHANNEL_VOICE_MESSAGES_noteon,
      MIDI_CHANNEL_VOICE_MESSAGES_noteoff]
  · norm_num [convertToTimestamp]

/-- C3, counterexample: setRegisteredParameter([0,0], [12,300]) throws the lsb
range error, yet three messages (the two selects and the 0x06 data entry) have
already been handed to the Output collaborator, refuting the zero-messages-on-
failure claim. -/
theorem C3_counterexample :
    (setRegisteredParameter (ParamArg.arr (0, 0)) [12, 300] TimeSpec.asap 1 0).err ≠
      Option.none ∧
    (setRegisteredParameter (ParamArg.arr (0, 0)) [12, 300] TimeSpec.asap 1 0).sent ≠
      [] := by
  norm_num [setRegisteredParameter, selectRegisteredParameter,
    setCurrentRegisteredParameter, deselectRegisteredParameter, sendControlChange,
    MIDI_CHANNEL_VOICE_MESSAGES_controlchange, Outcome.andThen, ok, fail, jsFloor, jsTrunc]
  simp

/-- C3, amended: for all four parameter-protocol operations
(setRegisteredParameter, setNonRegisteredParameter, increment and decrement),
an out-of-range select byte fails the whole operation before any message is
sent; but for the two data-setting operations an out-of-range data byte fails
only after the messages preceding it went out: an invalid MSB leaves the two
select messages sent, an invalid LSB leaves the two select messages and the
0x06 data message sent. -/
theorem C3_amended_partial_send (p0 p1 d0 d1 : ℚ) (t : TimeSpec) (ch : Nat) (now : ℚ) :
    (¬ (0 ≤ jsFloor p0 ∧ jsFloor p0 ≤ 127) →
      setRegisteredParameter (ParamArg.arr (p0, p1)) [d0, d1] t ch now =
        fail (Err.rangeError "The control65 value must be between 0 and 127") ∧
      setNonRegisteredParameter (p0, p1) [d0, d1] t ch now =
        fail (Err.rangeError "The control63 value must be between 0 and 127.") ∧
      incrementRegisteredParameter (ParamArg.arr (p0, p1)) t ch now =
        fail (Err.rangeError "The control65 value must be between 0 and 127") ∧
      decrementRegisteredParameter (ParamArg.arr (p0, p1)) t ch now =
        fail (Err.rangeError "The control65 value must be between 0 and 127")) ∧
    ((0 ≤ jsFloor p0 ∧ jsFloor p0 ≤ 127) → ¬ (0 ≤ jsFloor p1 ∧ jsFloor p1 ≤ 127) →
      setRegisteredParameter (ParamArg.arr (p0, p1)) [d0, d1] t ch now =
        fail (Err.rangeError "The control64 value must be between 0 and 127") ∧
      setNonRegisteredParameter (p0, p1) [d0, d1] t ch now =
        fail (Err.rangeError "The control62 value must be between 0 and 127.") ∧
      incrementRegisteredParameter (ParamArg.arr (p0, p1)) t ch now =
        fail (Err.rangeError "The control64 value must be between 0 and 127") ∧
      decrementRegisteredParameter (ParamArg.arr (p0, p1)) t ch now =
        fail (Err.rangeError "The control64 value must be between 0 and 127")) ∧
    ((0 ≤ jsFloor p0 ∧ jsFloor p0 ≤ 127) → (0 ≤ jsFloor p1 ∧ jsFloor p1 ≤ 127) →
      ¬ (0 ≤ jsTrunc d0 ∧ jsTrunc d0 ≤ 127) →
      (setRegisteredParameter (ParamArg.arr (p0, p1)) [d0, d1] t ch now).sent.length = 2 ∧
      (setRegisteredParameter (ParamArg.arr (p0, p1)) [d0, d1] t ch now).err =
        Option.some (Err.rangeError "The msb value must be between 0 and 127.") ∧
      (setNonRegisteredParameter (p0, p1) [d0, d1] t ch now).sent.length = 2 ∧
      (setNonRegisteredParameter (p0, p1) [d0, d1] t ch now).err =
        Option.some (Err.rangeError "The msb value must be between 0 and 127.")) ∧
    ((0 ≤ jsFloor p0 ∧ jsFloor p0 ≤ 127) → (0 ≤ jsFloor p1 ∧ jsFloor p1 ≤ 127) →
      (0 ≤ jsTrunc d0 ∧ jsTrunc d0 ≤ 127) → ¬ (0 ≤ jsTrunc d1 ∧ jsTrunc d1 ≤ 127) →
      (setRegisteredParameter (ParamArg.arr (p0, p1)) [d0, d1] t ch now).sent.length = 3 ∧
      (setRegisteredParameter (ParamArg.arr (p0, p1)) [d0, d1] t ch now).err =
        Option.some (Err.rangeError "The lsb value must be between 0 and 127.") ∧
      (setNonRegisteredParameter (p0, p1) [d0, d1] t ch now).sent.length = 3 ∧
      (setNonRegisteredParameter (p0, p1) [d0, d1] t ch now).err =
        Option.some (Err.rangeError "The lsb value must be between 0 and 127.")) := by
  refine ⟨?_, ?_, ?_, ?_⟩
  · intro h
    refine ⟨?_, ?_, ?_, ?_⟩
    · simp only [setRegisteredParameter]
      rw [selectRegisteredParameter_err0 _ _ _ _ _ h, andThen_andThen_fail]
    · simp only [setNonRegisteredParameter]
      rw [selectNonRegisteredParameter_err0 _ _ _ _ _ h, andThen_andThen_fail]
    · simp only [incrementRegisteredParameter]
      rw [selectRegisteredParameter_err0 _ _ _ _ _ h, andThen_andThen_fail]
    · simp only [decrementRegisteredParameter]
      rw [selectRegisteredParameter_err0 _ _ _ _ _ h, andThen_andThen_fail]
  · intro h0 h1
    refine ⟨?_, ?_, ?_, ?_⟩
    · simp only [setRegisteredParameter]
      rw [selectRegisteredParameter_err1 _ _ _ _ _ h0 h1, andThen_andThen_fail]
    · simp only [setNonRegisteredParameter]
      rw [selectNonRegisteredParameter_err1 _ _ _ _ _ h0 h1, andThen_andThen_fail]
    · simp only [incrementRegisteredParameter]
      rw [selectRegisteredParameter_err1 _ _ _ _ _ h0 h1, andThen_andThen_fail]
    · simp only [decrementRegisteredParameter]
      rw [selectRegisteredParameter_err1 _ _ _ _ _ h0 h1, andThen_andThen_fail]
  · intro h0 h1 hm
    constructor
    · simp only [setRegisteredParameter]
      rw [selectRegisteredParameter_ok _ _ _ _ _ h0 h1,
        andThen_andThen_ok_err _ _ _ _ _ (setCurrentRegisteredParameter_msb_bad _ _ _ _ _ hm)]
      simp
    constructor
    · simp only [setRegisteredParameter]
      rw [selectRegisteredParameter_ok _ _ _ _ _ h0 h1,
        andThen_andThen_ok_err _ _ _ _ _ (setCurrentRegisteredParameter_msb_bad _ _ _ _ _ hm)]
    · simp only [setNonRegisteredParameter]
      rw [selectNonRegisteredParameter_ok _ _ _ _ _ h0 h1,
        andThen_andThen_ok_err _ _ _ _ _ (setCurrentRegisteredParameter_msb_bad _ _ _ _ _ hm)]
      simp
  · intro h0 h1 hm hl
    constructor
    · simp only [setRegisteredParameter]
      rw [selectRegisteredParameter_ok _ _ _ _ _ h0 h1,
        andThen_andThen_ok_err _ _ _ _ _
          (setCurrentRegisteredParameter_lsb_bad _ _ _ _ _ _ hm hl)]
      simp
    constructor
    · simp only [setRegisteredParameter]
      rw [selectRegisteredParameter_ok _ _ _ _ _ h0 h1,
        andThen_andThen_ok_err _ _ _ _ _
          (setCurrentRegisteredParameter_lsb_bad _ _ _ _ _ _ hm hl)]
    · simp only [setNonRegisteredParameter]
      rw [selectNonRegisteredParameter_ok _ _ _ _ _ h0 h1,
        andThen_andThen_ok_err _ _ _ _ _
          (setCurrentRegisteredParameter_lsb_bad _ _ _ _ _ _ hm hl)]
      simp

/-- C3, witness: at the concrete input [0,0] with data [12,300] the lsb branch
of the amended theorem applies to both data-setting operations (three messages
out, then the range error), and with the select byte 300 the fail-fast branch
applies to all four operations. -/
theorem C3_amended_partial_send_witness :
    ((setRegisteredParameter (ParamArg.arr (0, 0)) [12, 300] TimeSpec.asap 1 0).sent.length = 3 ∧
     (setRegisteredParameter (ParamArg.arr (0, 0)) [12, 300] TimeSpec.asap 1 0).err =
       Option.some (Err.rangeError "The lsb value must be between 0 and 127.") ∧
     (setNonRegisteredParameter (0, 0) [12, 300] TimeSpec.asap 1 0).sent.length = 3 ∧
     (setNonRegisteredParameter (0, 0) [12, 300] TimeSpec.asap 1 0).err =
       Option.some (Err.rangeError "The lsb value must be between 0 and 127.")) ∧
    (setRegisteredParameter (ParamArg.arr (300, 0)) [12, 0] TimeSpec.asap 1 0 =
       fail (Err.rangeError "The control65 value must be between 0 and 127") ∧
     setNonRegisteredParameter (300, 0) [12, 0] TimeSpec.asap 1 0 =
       fail (Err.rangeError "The control63 value must be between 0 and 127.") ∧
     incrementRegisteredParameter (ParamArg.arr (300, 0)) TimeSpec.asap 1 0 =
       fail (Err.rangeError "The control65 value must be between 0 and 127") ∧
     decrementRegisteredParameter (ParamArg.arr (300, 0)) TimeSpec.asap 1 0 =
       fail (Err.rangeError "The control65 value must be between 0 and 127")) :=
  ⟨(C3_amended_partial_send 0 0 12 300 TimeSpec.asap 1 0).2.2.2
     (by norm_num [jsFloor]) (by norm_num [jsFloor])
     (by norm_num [jsTrunc]) (by norm_num [jsTrunc]),
   (C3_amended_partial_send 300 0 12 0 TimeSpec.asap 1 0).1 (by norm_num [jsFloor])⟩

/-- C4, code behavior at the failing input: on channel 1 with now = 1000 and
time "+50", setRegisteredParameter("pitchbendrange", [2]) timestamps the two
select messages and the 0x06 data message at 1000 (the channel number, passed
where the helpers expect the time argument, resolves as a past absolute time,
hence as soon as possible) while the two deselect messages carry 1050, so the
five messages of one operation do not share a single resolved timestamp. -/
theorem C4_timestamp_code_behavior :
    (setRegisteredParameter (ParamArg.name "pitchbendrange") [2]
        (TimeSpec.rel 50) 1 1000).sent.map Msg.timestamp =
      [1000, 1000, 1000, 1050, 1050] ∧
    [(1000 : ℚ), 1000, 1000, 1050, 1050] ≠
      List.replicate 5 (convertToTimestamp 1000 (TimeSpec.rel 50)) := by
  constructor
  · norm_num [setRegisteredParameter, MIDI_REGISTERED_PARAMETER,
      selectRegisteredParameter, setCurrentRegisteredParameter,
      deselectRegisteredParameter, sendControlChange,
      MIDI_CHANNEL_VOICE_MESSAGES_controlchange, Outcome.andThen, ok, fail,
      jsFloor, jsTrunc, convertToTimestamp]
  · norm_num [convertToTimestamp, List.replicate]

/-- C5: for every pitch-bend value v in [-1,1], setPitchBend emits one message
whose data bytes are, in order, the low and the high 7-bit half of
round((v+1)/2*16383), so the (LSB, MSB) pair reconstructs that rounded level
exactly and each byte fits in 7 bits. -/
theorem C5_pitchBend_reconstruction (v : ℚ) (h1 : -1 ≤ v) (h2 : v ≤ 1)
    (t : TimeSpec) (ch : Nat) (now : ℚ) :
    (setPitchBend v false t ch now).sent =
      [⟨0xE * 16 + (ch - 1),
        [(((jsRound ((v + 1) / 2 * 16383)).toNat % 128 : Nat) : ℚ),
         (((jsRound ((v + 1) / 2 * 16383)).toNat / 128 : Nat) : ℚ)],
        convertToTimestamp now t⟩] ∧
    (setPitchBend v false t ch now).err = Option.none ∧
    (jsRound ((v + 1) / 2 * 16383)).toNat / 128 * 128 +
        (jsRound ((v + 1) / 2 * 16383)).toNat % 128 =
      (jsRound ((v + 1) / 2 * 16383)).toNat ∧
    (((jsRound ((v + 1) / 2 * 16383)).toNat : Nat) : Int) =
      jsRound ((v + 1) / 2 * 16383) ∧
    (jsRound ((v + 1) / 2 * 16383)).toNat / 128 < 128 := by
  have hq0 : (0 : ℚ) ≤ (v + 1) / 2 * 16383 := by
    have : (0 : ℚ) ≤ (v + 1) / 2 := by linarith
    nlinarith
  have hq1 : (v + 1) / 2 * 16383 ≤ 16383 := by
    have : (v + 1) / 2 ≤ 1 := by linarith
    nlinarith
  have hr0 : 0 ≤ jsRound ((v + 1) / 2 * 16383) := by
    rw [jsRound]
    refine Int.le_floor.mpr ?_
    push_cast
    linarith
  have hr1 : jsRound ((v + 1) / 2 * 16383) ≤ 16383 := by
    rw [jsRound]
    have h := Int.floor_lt.mpr
      (show (v + 1) / 2 * 16383 + 1/2 < ((16384 : Int) : ℚ) by push_cast; linarith)
    omega
  have hn : (jsRound ((v + 1) / 2 * 16383)).toNat ≤ 16383 := Int.toNat_le.mpr hr1
  have hcast : (((jsRound ((v + 1) / 2 * 16383)).toNat : Nat) : Int) =
      jsRound ((v + 1) / 2 * 16383) := Int.toNat_of_nonneg hr0
  have hand : ∀ m : Nat, m &&& 127 = m % 128 := by
    intro m
    have h := Nat.and_pow_two_sub_one_eq_mod m 7
    norm_num at h
    exact h
  have hshift : (jsRound ((v + 1) / 2 * 16383)).toNat >>> 7 =
      (jsRound ((v + 1) / 2 * 16383)).toNat / 128 := by
    have h := Nat.shiftRight_eq_div_pow (jsRound ((v + 1) / 2 * 16383)).toNat 7
    norm_num at h
    exact h
  have hdivlt : (jsRound ((v + 1) / 2 * 16383)).toNat / 128 < 128 := by omega
  simp only [setPitchBend, Bool.false_eq_true, if_false]
  rw [if_neg (by push_neg; exact ⟨h1, h2⟩)]
  refine ⟨?_, ?_, by omega, hcast, hdivlt⟩
  · simp [ok, MIDI_CHANNEL_VOICE_MESSAGES_pitchbend, hand, hshift,
      Nat.mod_eq_of_lt hdivlt]
  · simp [ok]

/-- C5, witness: the pitch-bend theorem applied at v = 0 on channel 1. -/
theorem C5_pitchBend_reconstruction_witness :
    (setPitchBend 0 false TimeSpec.asap 1 0).sent =
      [⟨0xE * 16 + (1 - 1),
        [(((jsRound (((0 : ℚ) + 1) / 2 * 16383)).toNat % 128 : Nat) : ℚ),
         (((jsRound (((0 : ℚ) + 1) / 2 * 16383)).toNat / 128 : Nat) : ℚ)],
        convertToTimestamp 0 TimeSpec.asap⟩] ∧
    (setPitchBend 0 false TimeSpec.asap 1 0).err = Option.none ∧
    (jsRound (((0 : ℚ) + 1) / 2 * 16383)).toNat / 128 * 128 +
        (jsRound (((0 : ℚ) + 1) / 2 * 16383)).toNat % 128 =
      (jsRound (((0 : ℚ) + 1) / 2 * 16383)).toNat ∧
    (((jsRound (((0 : ℚ) + 1) / 2 * 16383)).toNat : Nat) : Int) =
      jsRound (((0 : ℚ) + 1) / 2 * 16383) ∧
    (jsRound (((0 : ℚ) + 1) / 2 * 16383)).toNat / 128 < 128 :=
  C5_pitchBend_reconstruction 0 (by norm_num) (by norm_num) TimeSpec.asap 1 0

/-- C6, counterexample: setProgram(0) and setProgram(129) do not fail with a
range error; each emits one message, with data byte -1 and 128 respectively. -/
theorem C6_counterexample :
    (setProgram 0 TimeSpec.asap 1 0).err = Option.none ∧
    (setProgram 0 TimeSpec.asap 1 0).sent.map Msg.data = [[-1]] ∧
    (setProgram 129 TimeSpec.asap 1 0).err = Option.none ∧
    (setProgram 129 TimeSpec.asap 1 0).sent.map Msg.data = [[128]] := by
  norm_num [setProgram, ok]

/-- C6, amended: setProgram performs no validation at this layer; for every
input it emits exactly one program-change message whose single data byte is the
input minus 1, so setProgram(1) sends [0] and setProgram(128) sends [127],
while out-of-domain inputs pass straight through (0 sends [-1], 129 sends
[128]) instead of raising an error. -/
theorem C6_amended_setProgram :
    (∀ (p : ℚ) (t : TimeSpec) (ch : Nat) (now : ℚ),
      setProgram p t ch now =
        ok [⟨0xC * 16 + (ch - 1), [p - 1], convertToTimestamp now t⟩]) ∧
    (setProgram 1 TimeSpec.asap 1 0).sent.map Msg.data = [[0]] ∧
    (setProgram 128 TimeSpec.asap 1 0).sent.map Msg.data = [[127]] := by
  refine ⟨fun p t ch now => rfl, ?_, ?_⟩ <;>
    norm_num [setProgram, ok, MIDI_CHANNEL_VOICE_MESSAGES_programchange]

/-- C7, code behavior at the failing input: an out-of-range pressure of 2 makes
both aftertouch operations throw a RangeError with nothing sent, while a
missing (non-numeric) pressure does fall back to the default 64 and sends the
message, so only half of the claimed leniency policy holds in the code. -/
theorem C7_aftertouch_code_behavior :
    setKeyAftertouch 60 (Option.some 2) false TimeSpec.asap 1 0 =
      fail (Err.rangeError "Pressure value must be between 0 and 1.") ∧
    setChannelAftertouch (Option.some 2) false TimeSpec.asap 1 0 =
      fail (Err.rangeError "Pitch bend value must be between 0 and 1.") ∧
    setKeyAftertouch 60 Option.none false TimeSpec.asap 1 0 =
      ok [⟨0xA * 16 + (1 - 1), [60, 64], convertToTimestamp 0 TimeSpec.asap⟩] ∧
    setChannelAftertouch Option.none false TimeSpec.asap 1 0 =
      ok [⟨0xD * 16 + (1 - 1), [64], convertToTimestamp 0 TimeSpec.asap⟩] := by
  refine ⟨?_, ?_, ?_, ?_⟩ <;>
    norm_num [setKeyAftertouch, setChannelAftertouch, getValidNoteArray, jsRound,
      MIDI_CHANNEL_VOICE_MESSAGES_keyaftertouch,
      MIDI_CHANNEL_VOICE_MESSAGES_channelaftertouch, ok, fail]

/-- C8, counterexample: a numeric channel-mode command outside 120-127 throws a
TypeError, not the RangeError-kind error the claim states, and an unrecognized
registered-parameter name given to setRegisteredParameter throws a generic
Error, not a TypeError-kind error. -/
theorem C8_counterexample :
    sendChannelMode (CmdArg.num 119) (Option.some 0) TimeSpec.asap 1 0 =
      fail (Err.typeError "Invalid channel mode message name or number.") ∧
    setRegisteredParameter (ParamArg.name "unknownparam") [] TimeSpec.asap 1 0 =
      fail (Err.genericError "The specified parameter is not available.") := by
  constructor
  · norm_num [sendChannelMode, jsTrunc, fail]
  · rfl

/-- C8, amended: a numeric channel-mode command outside 120-127 fails with a
TypeError; an unrecognized parameter name makes setRegisteredParameter and
incrementRegisteredParameter fail with a generic Error and
decrementRegisteredParameter fail with a TypeError; in every case nothing is
sent. -/
theorem C8_amended_error_kinds (q : ℚ) (v : Option ℚ) (s : String) (data : List ℚ)
    (t : TimeSpec) (ch : Nat) (now : ℚ) :
    (¬ (120 ≤ jsTrunc q ∧ jsTrunc q ≤ 127) →
      sendChannelMode (CmdArg.num q) v t ch now =
        fail (Err.typeError "Invalid channel mode message name or number.")) ∧
    (MIDI_REGISTERED_PARAMETER s = Option.none →
      setRegisteredParameter (ParamArg.name s) data t ch now =
        fail (Err.genericError "The specified parameter is not available.") ∧
      incrementRegisteredParameter (ParamArg.name s) t ch now =
        fail (Err.genericError "The specified parameter is not available.") ∧
      decrementRegisteredParameter (ParamArg.name s) t ch now =
        fail (Err.typeError "The specified parameter is not available.")) := by
  refine ⟨?_, ?_⟩
  · intro h
    simp only [sendChannelMode]
    rw [if_pos h]
  · intro hs
    refine ⟨?_, ?_, ?_⟩ <;>
      simp only [setRegisteredParameter, incrementRegisteredParameter,
        decrementRegisteredParameter, hs]

/-- C8, witness: the amended theorem applied at the numeric command 119 and at
the unrecognized name "nonexistent". -/
theorem C8_amended_error_kinds_witness :
    sendChannelMode (CmdArg.num 119) (Option.some 0) TimeSpec.asap 1 0 =
      fail (Err.typeError "Invalid channel mode message name or number.") ∧
    (setRegisteredParameter (ParamArg.name "nonexistent") [] TimeSpec.asap 1 0 =
      fail (Err.genericError "The specified parameter is not available.") ∧
    incrementRegisteredParameter (ParamArg.name "nonexistent") TimeSpec.asap 1 0 =
      fail (Err.genericError "The specified parameter is not available.") ∧
    decrementRegisteredParameter (ParamArg.name "nonexistent") TimeSpec.asap 1 0 =
      fail (Err.typeError "The specified parameter is not available.")) :=
  ⟨(C8_amended_error_kinds 119 (Option.some 0) "nonexistent" [] TimeSpec.asap 1 0).1
      (by norm_num [jsTrunc]),
   (C8_amended_error_kinds 119 (Option.some 0) "nonexistent" [] TimeSpec.asap 1 0).2 rfl⟩

/-- C9: for every channel 1-16, every message emitted by any operation of the
embedding that sends directly (sendControlChange, setPitchBend, sendNoteOn,
sendNoteOff, setProgram, sendChannelMode, setKeyAftertouch and
setChannelAftertouch) carries the status byte nibble*16 + (channel-1), whose
low nibble is channel-1, whose high nibble is the command nibble, and which
lies in [128,255]. -/
theorem C9_status_byte_invariant (ch : Nat) (h1 : 1 ≤ ch) (h2 : ch ≤ 16)
    (c value note : ℚ) (raw : Bool) (opts : NoteOptions) (oopts : Option NoteOptions)
    (p : ℚ) (cmd : CmdArg) (val : Option ℚ) (pres : Option ℚ) (useRaw : Bool)
    (t : TimeSpec) (now : ℚ) :
    ((sendControlChange (CtrlArg.num c) value t ch now).sent.map Msg.status =
      List.replicate (sendControlChange (CtrlArg.num c) value t ch now).sent.length
        (0xB * 16 + (ch - 1))) ∧
    ((setPitchBend value raw t ch now).sent.map Msg.status =
      List.replicate (setPitchBend value raw t ch now).sent.length
        (0xE * 16 + (ch - 1))) ∧
    ((sendNoteOn note opts ch now).sent.map Msg.status =
      List.replicate (sendNoteOn note opts ch now).sent.length
        (0x9 * 16 + (ch - 1))) ∧
    ((sendNoteOff note oopts ch now).sent.map Msg.status =
      List.replicate (sendNoteOff note oopts ch now).sent.length
        (0x8 * 16 + (ch - 1))) ∧
    ((setProgram p t ch now).sent.map Msg.status =
      List.replicate (setProgram p t ch now).sent.length
        (0xC * 16 + (ch - 1))) ∧
    ((sendChannelMode cmd val t ch now).sent.map Msg.status =
      List.replicate (sendChannelMode cmd val t ch now).sent.length
        (0xB * 16 + (ch - 1))) ∧
    ((setKeyAftertouch note pres useRaw t ch now).sent.map Msg.status =
      List.replicate (setKeyAftertouch note pres useRaw t ch now).sent.length
        (0xA * 16 + (ch - 1))) ∧
    ((setChannelAftertouch pres useRaw t ch now).sent.map Msg.status =
      List.replicate (setChannelAftertouch pres useRaw t ch now).sent.length
        (0xD * 16 + (ch - 1))) ∧
    ((0x8 * 16 + (ch - 1)) % 16 = ch - 1 ∧ (0x8 * 16 + (ch - 1)) / 16 = 0x8 ∧
     (0x9 * 16 + (ch - 1)) % 16 = ch - 1 ∧ (0x9 * 16 + (ch - 1)) / 16 = 0x9 ∧
     (0xA * 16 + (ch - 1)) % 16 = ch - 1 ∧ (0xA * 16 + (ch - 1)) / 16 = 0xA ∧
     (0xB * 16 + (ch - 1)) % 16 = ch - 1 ∧ (0xB * 16 + (ch - 1)) / 16 = 0xB ∧
     (0xC * 16 + (ch - 1)) % 16 = ch - 1 ∧ (0xC * 16 + (ch - 1)) / 16 = 0xC ∧
     (0xD * 16 + (ch - 1)) % 16 = ch - 1 ∧ (0xD * 16 + (ch - 1)) / 16 = 0xD ∧
     (0xE * 16 + (ch - 1)) % 16 = ch - 1 ∧ (0xE * 16 + (ch - 1)) / 16 = 0xE ∧
     128 ≤ 0x8 * 16 + (ch - 1) ∧ 0x8 * 16 + (ch - 1) ≤ 255 ∧
     128 ≤ 0x9 * 16 + (ch - 1) ∧ 0x9 * 16 + (ch - 1) ≤ 255 ∧
     128 ≤ 0xA * 16 + (ch - 1) ∧ 0xA * 16 + (ch - 1) ≤ 255 ∧
     128 ≤ 0xB * 16 + (ch - 1) ∧ 0xB * 16 + (ch - 1) ≤ 255 ∧
     128 ≤ 0xC * 16 + (ch - 1) ∧ 0xC * 16 + (ch - 1) ≤ 255 ∧
     128 ≤ 0xD * 16 + (ch - 1) ∧ 0xD * 16 + (ch - 1) ≤ 255 ∧
     128 ≤ 0xE * 16 + (ch - 1) ∧ 0xE * 16 + (ch - 1) ≤ 255) := by
  refine ⟨?_, ?_, ?_, ?_, ?_, ?_, ?_, ?_, by omega⟩
  · simp only [sendControlChange]
    split
    · simp [ok, MIDI_CHANNEL_VOICE_MESSAGES_controlchange]
    · simp [fail]
  · simp only [setPitchBend]
    split <;> split <;> simp [ok, fail, MIDI_CHANNEL_VOICE_MESSAGES_pitchbend]
  · simp only [sendNoteOn]
    simp [ok, getValidNoteArray, MIDI_CHANNEL_VOICE_MESSAGES_noteon]
  · rcases oopts with _ | o
    · simp [sendNoteOff, fail]
    · simp [sendNoteOff, ok, getValidNoteArray, MIDI_CHANNEL_VOICE_MESSAGES_noteoff]
  · simp [setProgram, ok, MIDI_CHANNEL_VOICE_MESSAGES_programchange]
  · rcases cmd with q | s
    · simp only [sendChannelMode]
      split
      · simp [fail]
      · split
        · simp [fail]
        · simp [ok, MIDI_CHANNEL_VOICE_MESSAGES_channelmode]
    · simp only [sendChannelMode]
      split
      · simp [fail]
      · split
        · simp [fail]
        · split
          · simp [fail]
          · simp [ok, MIDI_CHANNEL_VOICE_MESSAGES_channelmode]
  · simp only [setKeyAftertouch]
    split <;> split <;>
      simp [ok, fail, getValidNoteArray, MIDI_CHANNEL_VOICE_MESSAGES_keyaftertouch]
  · simp only [setChannelAftertouch]
    split <;> split <;> simp [ok, fail, MIDI_CHANNEL_VOICE_MESSAGES_channelaftertouch]

/-- C9, witness: the status invariant applied on channel 1 with controller 7,
value 3, note 60, program 5, channel-mode command 126, pressure 1/2 and empty
note options. -/
theorem C9_status_byte_invariant_witness :
    ((sendControlChange (CtrlArg.num 7) 3 TimeSpec.asap 1 0).sent.map Msg.status =
      List.replicate (sendControlChange (CtrlArg.num 7) 3 TimeSpec.asap 1 0).sent.length
        (0xB * 16 + (1 - 1))) ∧
    ((setPitchBend 3 false TimeSpec.asap 1 0).sent.map Msg.status =
      List.replicate (setPitchBend 3 false TimeSpec.asap 1 0).sent.length
        (0xE * 16 + (1 - 1))) ∧
    ((sendNoteOn 60 ⟨Option.none, Option.none, Option.none, Option.none, Option.none,
        Option.none, Option.none, TimeSpec.asap⟩ 1 0).sent.map Msg.status =
      List.replicate (sendNoteOn 60 ⟨Option.none, Option.none, Option.none, Option.none,
        Option.none, Option.none, Option.none, TimeSpec.asap⟩ 1 0).sent.length
        (0x9 * 16 + (1 - 1))) ∧
    ((sendNoteOff 60 (Option.some ⟨Option.none, Option.none, Option.none, Option.none,
        Option.none, Option.none, Option.none, TimeSpec.asap⟩) 1 0).sent.map Msg.status =
      List.replicate (sendNoteOff 60 (Option.some ⟨Option.none, Option.none, Option.none,
        Option.none, Option.none, Option.none, Option.none, TimeSpec.asap⟩) 1 0).sent.length
        (0x8 * 16 + (1 - 1))) ∧
    ((setProgram 5 TimeSpec.asap 1 0).sent.map Msg.status =
      List.replicate (setProgram 5 TimeSpec.asap 1 0).sent.length
        (0xC * 16 + (1 - 1))) ∧
    ((sendChannelMode (CmdArg.num 126) (Option.some 0) TimeSpec.asap 1 0).sent.map Msg.status =
      List.replicate (sendChannelMode (CmdArg.num 126) (Option.some 0)
        TimeSpec.asap 1 0).sent.length
        (0xB * 16 + (1 - 1))) ∧
    ((setKeyAftertouch 60 (Option.some (1/2)) false TimeSpec.asap 1 0).sent.map Msg.status =
      List.replicate (setKeyAftertouch 60 (Option.some (1/2)) false
        TimeSpec.asap 1 0).sent.length
        (0xA * 16 + (1 - 1))) ∧
    ((setChannelAftertouch (Option.some (1/2)) false TimeSpec.asap 1 0).sent.map Msg.status =
      List.replicate (setChannelAftertouch (Option.some (1/2)) false
        TimeSpec.asap 1 0).sent.length
        (0xD * 16 + (1 - 1))) ∧
    ((0x8 * 16 + (1 - 1)) % 16 = 1 - 1 ∧ (0x8 * 16 + (1 - 1)) / 16 = 0x8 ∧
     (0x9 * 16 + (1 - 1)) % 16 = 1 - 1 ∧ (0x9 * 16 + (1 - 1)) / 16 = 0x9 ∧
     (0xA * 16 + (1 - 1)) % 16 = 1 - 1 ∧ (0xA * 16 + (1 - 1)) / 16 = 0xA ∧
     (0xB * 16 + (1 - 1)) % 16 = 1 - 1 ∧ (0xB * 16 + (1 - 1)) / 16 = 0xB ∧
     (0xC * 16 + (1 - 1)) % 16 = 1 - 1 ∧ (0xC * 16 + (1 - 1)) / 16 = 0xC ∧
     (0xD * 16 + (1 - 1)) % 16 = 1 - 1 ∧ (0xD * 16 + (1 - 1)) / 16 = 0xD ∧
     (0xE * 16 + (1 - 1)) % 16 = 1 - 1 ∧ (0xE * 16 + (1 - 1)) / 16 = 0xE ∧
     128 ≤ 0x8 * 16 + (1 - 1) ∧ 0x8 * 16 + (1 - 1) ≤ 255 ∧
     128 ≤ 0x9 * 16 + (1 - 1) ∧ 0x9 * 16 + (1 - 1) ≤ 255 ∧
     128 ≤ 0xA * 16 + (1 - 1) ∧ 0xA * 16 + (1 - 1) ≤ 255 ∧
     128 ≤ 0xB * 16 + (1 - 1) ∧ 0xB * 16 + (1 - 1) ≤ 255 ∧
     128 ≤ 0xC * 16 + (1 - 1) ∧ 0xC * 16 + (1 - 1) ≤ 255 ∧
     128 ≤ 0xD * 16 + (1 - 1) ∧ 0xD * 16 + (1 - 1) ≤ 255 ∧
     128 ≤ 0xE * 16 + (1 - 1) ∧ 0xE * 16 + (1 - 1) ≤ 255) :=
  C9_status_byte_invariant 1 (by norm_num) (by norm_num) 7 3 60 false
    ⟨Option.none, Option.none, Option.none, Option.none, Option.none, Option.none,
     Option.none, TimeSpec.asap⟩
    (Option.some ⟨Option.none, Option.none, Option.none, Option.none, Option.none,
      Option.none, Option.none, TimeSpec.asap⟩)
    5 (CmdArg.num 126) (Option.some 0) (Option.some (1/2)) false TimeSpec.asap 0

/-- C10: for every note, calling sendNoteOff or its alias stopNote without an
options argument throws a TypeError before any message is sent, because the
deprecated option fields are read before the options default is applied. -/
theorem C10_sendNoteOff_missing_options (note : ℚ) (ch : Nat) (now : ℚ) :
    sendNoteOff note Option.none ch now =
      fail (Err.typeError "Cannot read properties of undefined") ∧
    stopNote note Option.none ch now =
      fail (Err.typeError "Cannot read properties of undefined") ∧
    (sendNoteOff note Option.none ch now).sent = [] :=
  ⟨rfl, rfl, rfl⟩
